import Mathlib

/-!
Verification of the Result library (a Rust-inspired success/failure value
type for TypeScript).  The definitions below are a shallow embedding of the
code shown in the repository README (`BaseResult`, `Ok`, `Err`,
`ResultError`, `ok`, `err`): the two subclasses `Ok`/`Err` of `BaseResult`
become the two constructors of an inductive type, the `instanceof` checks
behind `isOk`/`isErr` become constructor tests, and a method that throws
`ResultError` returns `Except ResultError _` instead.
-/

/-- The `Result` type: either an `Ok` variant holding a success value or an
`Err` variant holding an error value.  Embeds the closed class hierarchy
`BaseResult` / `Ok` / `Err` of the source as a two-constructor sum. -/
inductive Result (S E : Type) where
  | Ok (value : S)
  | Err (error : E)
deriving DecidableEq, Repr

/-- The `ResultError` class: an error carrying a `name` discriminator field
and a `message` field. -/
structure ResultError where
  name : String
  message : String
deriving DecidableEq, Repr

/-- The `ResultError` constructor: `constructor(message) { super(message) }`
with the field initializer `name = 'ResultError'`. -/
def ResultError.make (message : String) : ResultError :=
  { name := "ResultError", message := message }

/-- The handler object passed to `match`: `{ ok: (value) => U, err: (error) => U }`. -/
structure MatchOptions (S E U : Type) where
  ok : S → U
  err : E → U

namespace Result

variable {S E U : Type}

/-- `isOk(): boolean { return this instanceof Ok }`. -/
def isOk : Result S E → Bool
  | .Ok _ => true
  | .Err _ => false

/-- `isErr(): boolean { return this instanceof Err }`. -/
def isErr : Result S E → Bool
  | .Ok _ => false
  | .Err _ => true

/-- `match(options)`: `if (this.isOk()) return options.ok(this.value);
return options.err(this.error)`.  (Named `matchWith` because `match` is a
Lean keyword.) -/
def matchWith (r : Result S E) (options : MatchOptions S E U) : U :=
  match r with
  | .Ok value => options.ok value
  | .Err error => options.err error

/-- `unwrapTuple()`: `if (this.isOk()) return [this.value, undefined];
return [undefined, this.error]`.  The component types `S | undefined` and
`E | undefined` are embedded as `Option`, with `none` standing for
`undefined`. -/
def unwrapTuple (r : Result S E) : Option S × Option E :=
  match r with
  | .Ok value => (some value, none)
  | .Err error => (none, some error)

/-- `map(fn)`: `if (this.isOk()) return new Ok(fn(this.value));
return this as unknown as Err<U, TError>` — the `Err` branch returns the
receiver itself, with the error payload untouched. -/
def map (r : Result S E) (fn : S → U) : Result U E :=
  match r with
  | .Ok value => .Ok (fn value)
  | .Err error => .Err error

/-- `unwrapErr()`: `if (this.isErr()) return this.error;
throw new ResultError('Called unwrapErr on an Ok value')`. -/
def unwrapErr (r : Result S E) : Except ResultError E :=
  match r with
  | .Err error => .ok error
  | .Ok _ => .error (ResultError.make "Called unwrapErr on an Ok value")

/-- `unwrap()`: `if (this.isOk()) return this.value;
throw new ResultError('Called unwrap on an Err value')`. -/
def unwrap (r : Result S E) : Except ResultError S :=
  match r with
  | .Ok value => .ok value
  | .Err _ => .error (ResultError.make "Called unwrap on an Err value")

/-- `unwrapOr(fallback)`: `if (this.isOk()) return this.value;
return fallback`. -/
def unwrapOr (r : Result S E) (fallback : S) : S :=
  match r with
  | .Ok value => value
  | .Err _ => fallback

/-- Instrumented `map`: the same computation as `map`, additionally
recording the list of arguments `fn` is applied to along the executed code
path.  The `Ok` branch of the source contains the single call
`fn(this.value)`; the `Err` branch contains no call to `fn`. -/
def mapTr (r : Result S E) (fn : S → U) : Result U E × List S :=
  match r with
  | .Ok value => (.Ok (fn value), [value])
  | .Err error => (.Err error, [])

/-- Instrumented `match`: the same computation as `matchWith`, additionally
recording how many times each handler is invoked along the executed code
path (`ok` invocations, then `err` invocations). -/
def matchTr (r : Result S E) (options : MatchOptions S E U) : U × Nat × Nat :=
  match r with
  | .Ok value => (options.ok value, 1, 0)
  | .Err error => (options.err error, 0, 1)

end Result

/-- `ok(value)`: `return new Ok(value)`. -/
def ok {S E : Type} (value : S) : Result S E :=
  .Ok value

/-- `err(error)`: `return new Err(error)`. -/
def err {S E : Type} (error : E) : Result S E :=
  .Err error

/-- A universal domain of TypeScript runtime values, including the
distinguished `undefined` value.  Used to state runtime-level properties in
which a type parameter may itself be instantiated with `undefined`. -/
inductive TSValue where
  | undef
  | ofNat (n : Nat)
  | ofStr (s : String)
  | ofBool (b : Bool)
deriving DecidableEq, Repr

/-- A runtime value is "defined"/"present" iff it is not `undefined`. -/
def TSValue.isDefined : TSValue → Bool
  | .undef => false
  | _ => true

/-- TypeScript union collapse: a value of type `T | undefined`, where `T`
is the runtime-value domain, is just a runtime value — `undefined` whether
it came from the `undefined` arm or from `T` itself. -/
def TSValue.collapse : Option TSValue → TSValue
  | none => .undef
  | some v => v

/-- `unwrapTuple` as observed at the TypeScript runtime when both type
parameters range over runtime values: the `S | undefined` and
`E | undefined` component types collapse into the runtime-value domain. -/
def unwrapTupleRT (r : Result TSValue TSValue) : TSValue × TSValue :=
  (TSValue.collapse (r.unwrapTuple).1, TSValue.collapse (r.unwrapTuple).2)

/-- Number of defined/present components in a runtime tuple. -/
def definedCount (t : TSValue × TSValue) : Nat :=
  (if t.1.isDefined then 1 else 0) + (if t.2.isDefined then 1 else 0)

/-- The instrumented `mapTr` computes exactly `map`. -/
theorem mapTr_fst {S E U : Type} (r : Result S E) (fn : S → U) :
    (r.mapTr fn).1 = r.map fn := by
  cases r <;> rfl

/-- The instrumented `matchTr` computes exactly `matchWith`. -/
theorem matchTr_fst {S E U : Type} (r : Result S E) (o : MatchOptions S E U) :
    (r.matchTr o).1 = r.matchWith o := by
  cases r <;> rfl

/-- C1: `ok(v).unwrap()` returns `v`; `err(e).unwrap()` throws the misuse
error; `err(e).unwrapErr()` returns `e`; `ok(v).unwrapErr()` throws the
misuse error.  Each extractor throws iff it is called on the wrong variant,
and the thrown error's message names the extractor and the wrong variant it
was invoked on. -/
theorem C1_unwrap_extractors {S E : Type} (v : S) (e : E) :
    (ok v : Result S E).unwrap = Except.ok v
    ∧ (err e : Result S E).unwrap
        = Except.error (ResultError.make "Called unwrap on an Err value")
    ∧ (err e : Result S E).unwrapErr = Except.ok e
    ∧ (ok v : Result S E).unwrapErr
        = Except.error (ResultError.make "Called unwrapErr on an Ok value")
    ∧ (∀ r : Result S E, (∃ x, r.unwrap = Except.error x) ↔ r.isErr = true)
    ∧ (∀ r : Result S E, (∃ x, r.unwrapErr = Except.error x) ↔ r.isOk = true)
    ∧ "Called unwrap on an Err value" ≠ "Called unwrapErr on an Ok value" := by
  refine ⟨rfl, rfl, rfl, rfl, ?_, ?_, by decide⟩
  · intro r
    cases r with
    | Ok value =>
        simp [Result.unwrap, Result.isErr]
    | Err error =>
        simp [Result.unwrap, Result.isErr]
  · intro r
    cases r with
    | Ok value =>
        simp [Result.unwrapErr, Result.isOk]
    | Err error =>
        simp [Result.unwrapErr, Result.isOk]

/-- C2: `ok(v).map(f)` is a success wrapping `f(v)`, so
`ok(v).map(f).unwrap() = f(v)`; and along the executed code path `fn` is
applied exactly once (to `v`) when the receiver is `Ok` and zero times when
it is `Err`. -/
theorem C2_map_success {S E U : Type} (v : S) (f : S → U) :
    (ok v : Result S E).map f = ok (f v)
    ∧ ((ok v : Result S E).map f).unwrap = Except.ok (f v)
    ∧ ((ok v : Result S E).mapTr f).2 = [v]
    ∧ ∀ e : E, ((err e : Result S E).mapTr f).2 = ([] : List S) := by
  exact ⟨rfl, rfl, rfl, fun e => rfl⟩

/-- C3: `err(e).map(f)` is a failure whose error payload is the very same
payload `e` — in this value-level embedding, the resulting Result is equal
as a term to `Err e`, with `e` passed through untouched, and `map` is a
pure function of its receiver (the original Result value is immutable). -/
theorem C3_map_failure {S E U : Type} (e : E) (f : S → U) :
    (err e : Result S E).map f = (err e : Result U E)
    ∧ ((err e : Result S E).map f).isErr = true
    ∧ ((err e : Result S E).map f).unwrapErr = Except.ok e := by
  exact ⟨rfl, rfl, rfl⟩

/-- C4: `match` invokes exactly one handler — `ok` with the success payload
on an `Ok` receiver, `err` with the error payload on an `Err` receiver —
and returns that handler's return value directly; the instrumented handler
invocation counts are `(1, 0)` or `(0, 1)` and always sum to one. -/
theorem C4_match_one_handler {S E U : Type} (v : S) (e : E) (o : MatchOptions S E U) :
    (ok v : Result S E).matchWith o = o.ok v
    ∧ (err e : Result S E).matchWith o = o.err e
    ∧ ((ok v : Result S E).matchTr o).2 = (1, 0)
    ∧ ((err e : Result S E).matchTr o).2 = (0, 1)
    ∧ ∀ r : Result S E,
        (r.matchTr o).2.1 + (r.matchTr o).2.2 = 1
        ∧ (r.matchTr o).1 = r.matchWith o := by
  refine ⟨rfl, rfl, rfl, rfl, ?_⟩
  intro r
  cases r <;> exact ⟨rfl, rfl⟩

/-- C5 counterexample: the claim "for every Result, exactly one component of
the tuple returned by `unwrapTuple` is the defined/present one — never both,
never neither" is false at the concrete input `ok(undefined)`: there the
runtime tuple is `(undefined, undefined)` and zero components are defined. -/
theorem C5_counterexample :
    unwrapTupleRT (ok TSValue.undef) = (TSValue.undef, TSValue.undef)
    ∧ definedCount (unwrapTupleRT (ok TSValue.undef)) = 0
    ∧ ¬ definedCount (unwrapTupleRT (ok TSValue.undef)) = 1 := by
  decide

/-- C5 (amended): `ok(v).unwrapTuple()` returns `(v, undefined)` and
`err(e).unwrapTuple()` returns `(undefined, e)` for all runtime values; and
whenever the stored payload is itself a defined (non-`undefined`) value,
exactly one component of the returned tuple is defined. -/
theorem C5_unwrapTuple (v e : TSValue) :
    unwrapTupleRT (ok v) = (v, TSValue.undef)
    ∧ unwrapTupleRT (err e) = (TSValue.undef, e)
    ∧ (v.isDefined = true → definedCount (unwrapTupleRT (ok v)) = 1)
    ∧ (e.isDefined = true → definedCount (unwrapTupleRT (err e)) = 1) := by
  refine ⟨rfl, rfl, ?_, ?_⟩
  · intro h
    cases v with
    | undef => exact absurd h (by decide)
    | ofNat n => rfl
    | ofStr s => rfl
    | ofBool b => rfl
  · intro h
    cases e with
    | undef => exact absurd h (by decide)
    | ofNat n => rfl
    | ofStr s => rfl
    | ofBool b => rfl

/-- C5 witness: the amended theorem applied at the concrete inputs
`ok(1)` and `err("boom")`, with both definedness hypotheses discharged. -/
theorem C5_unwrapTuple_witness :
    definedCount (unwrapTupleRT (ok (TSValue.ofNat 1))) = 1
    ∧ definedCount (unwrapTupleRT (err (TSValue.ofStr "boom"))) = 1 :=
  ⟨(C5_unwrapTuple (TSValue.ofNat 1) (TSValue.ofStr "boom")).2.2.1 (by decide),
   (C5_unwrapTuple (TSValue.ofNat 1) (TSValue.ofStr "boom")).2.2.2 (by decide)⟩

/-- C6: `ok(v)` satisfies `isOk() = true` and `isErr() = false`; `err(e)`
satisfies `isErr() = true` and `isOk() = false`. -/
theorem C6_constructors_tags {S E : Type} (v : S) (e : E) :
    (ok v : Result S E).isOk = true
    ∧ (ok v : Result S E).isErr = false
    ∧ (err e : Result S E).isErr = true
    ∧ (err e : Result S E).isOk = false := by
  exact ⟨rfl, rfl, rfl, rfl⟩

/-- C7: for every Result `r`, exactly one of `r.isOk()` and `r.isErr()` is
true — the two predicates are complementary on every well-formed Result
(hence also on the output of every operation returning a Result). -/
theorem C7_tags_complementary {S E : Type} (r : Result S E) :
    (r.isOk = true ∧ r.isErr = false) ∨ (r.isOk = false ∧ r.isErr = true) := by
  cases r with
  | Ok value => exact Or.inl ⟨rfl, rfl⟩
  | Err error => exact Or.inr ⟨rfl, rfl⟩

/-- C8: `ok(v).unwrapOr(fallback)` returns `v` and
`err(e).unwrapOr(fallback)` returns `fallback`; `unwrapOr` is total (its
return type is a plain `S`, not `Except`, so it has no error outcome) on
every well-formed Result. -/
theorem C8_unwrapOr {S E : Type} (v : S) (e : E) (fallback : S) :
    (ok v : Result S E).unwrapOr fallback = v
    ∧ (err e : Result S E).unwrapOr fallback = fallback := by
  exact ⟨rfl, rfl⟩

/-- C9: a `ResultError` constructed from any message string carries the
stable discriminator `name = "ResultError"` and a `message` field equal to
the string supplied at construction. -/
theorem C9_result_error_fields (message : String) :
    (ResultError.make message).name = "ResultError"
    ∧ (ResultError.make message).message = message := by
  exact ⟨rfl, rfl⟩

/-- C10: when the success payload is itself `undefined`, the Result still
behaves as a success: `ok(undefined).isOk()` is true, and
`ok(undefined).unwrapTuple()` is the runtime tuple `(undefined, undefined)`,
in which neither component is a defined/present value. -/
theorem C10_ok_undefined :
    (ok TSValue.undef : Result TSValue TSValue).isOk = true
    ∧ unwrapTupleRT (ok TSValue.undef) = (TSValue.undef, TSValue.undef)
    ∧ (unwrapTupleRT (ok TSValue.undef)).1.isDefined = false
    ∧ (unwrapTupleRT (ok TSValue.undef)).2.isDefined = false := by
  decide
